import Mathlib

/-!
Verification development for a two-stage crash-data pipeline:
a paginated Fetcher (`fetch_crash_data.py`) and a Spatial Filter &
Exporter (`json_to_shapefile.py`).  The Python sources are embedded
shallowly: the fetch loop becomes a fuel-indexed recursive function over an
abstract HTTP server, JSON records become association lists, and the
geospatial stage becomes list processing over rational-coordinate points
with coordinate-reference-system (CRS) tags.
-/

namespace CrashData

/-- A crash record as returned by the SODA API: a flat JSON object,
modelled as an association list of field name to string value. -/
abbrev Record := List (String × String)

/-- Model of a `requests.get` response: an HTTP status code and the parsed
JSON body (a direct array of records, no envelope). -/
structure Response where
  status_code : Nat
  body : List Record
deriving DecidableEq, Repr

/-- A log line printed by the fetch script: the error print on a
non-success status, the per-page progress print, or the final save print. -/
inductive LogLine
  | error (status : Nat)
  | fetched (count : Nat)
  | saved (count : Nat)
deriving DecidableEq, Repr

/-- State of the fetch loop when it exits: the accumulated `all_records`
list, the successful pages in order (ghost observation of each `extend`),
the progress/error log lines, every `(limit, offset)` pair requested, and
the status code that aborted the loop, if any. -/
structure FetchState where
  all_records : List Record
  pages : List (List Record)
  logs : List LogLine
  requests : List (Nat × Nat)
  err : Option Nat
deriving DecidableEq, Repr

/-- The `while True` pagination loop of `fetch_crash_data.py`.  `server`
abstracts the remote API: given `$limit` and `$offset` it yields a
`Response`.  Each iteration issues one request; a non-success status prints
an error and breaks, an empty body breaks normally, otherwise the page is
appended to `all_records`, progress is printed, and `offset += limit`.
`fuel` bounds the number of iterations (the Python loop is unbounded);
`none` means the fuel ran out before the loop exited. -/
def fetchLoop (server : Nat → Nat → Response) (limit : Nat) :
    Nat → Nat → List Record → List (List Record) → List LogLine →
    List (Nat × Nat) → Option FetchState
  | 0, _, _, _, _, _ => none
  | fuel + 1, offset, acc, pages, logs, reqs =>
    let response := server limit offset
    let reqs2 := reqs ++ [(limit, offset)]
    if response.status_code ≠ 200 then
      some ⟨acc, pages, logs ++ [.error response.status_code], reqs2,
        some response.status_code⟩
    else if response.body = [] then
      some ⟨acc, pages, logs, reqs2, none⟩
    else
      fetchLoop server limit fuel (offset + limit) (acc ++ response.body)
        (pages ++ [response.body])
        (logs ++ [.fetched (acc ++ response.body).length]) reqs2

/-- Serialization of a string as a JSON string (escaping elided: SODA
field names and values in this model carry no special characters). -/
def dumpStr (s : String) : String := "\"" ++ s ++ "\""

/-- One `"key": "value"` line of a record object at the nesting depth
produced by `json.dump(all_records, f, indent=2)`. -/
def dumpPair (kv : String × String) : String :=
  "    " ++ dumpStr kv.1 ++ ": " ++ dumpStr kv.2

/-- A record object as `json.dump` with `indent=2` renders it inside the
top-level array. -/
def dumpRecord (r : Record) : String :=
  match r with
  | [] => "\x7b\x7d"
  | _ => "\x7b\n" ++ String.intercalate ",\n" (r.map dumpPair) ++ "\n  \x7d"

/-- `json.dump(all_records, f, indent=2)`: the empty list renders as
`[]`, a non-empty list as a 2-space-indented multi-line array. -/
def jsonDump (rs : List Record) : String :=
  match rs with
  | [] => "[]"
  | _ => "[\n" ++ String.intercalate ",\n" (rs.map (fun r => "  " ++ dumpRecord r))
      ++ "\n]"

/-- Observable outcome of one full run of `fetch_crash_data.py`: the
sequence of writes to `crash_data.json` (the script writes exactly once,
unconditionally, after the loop), the final `all_records`, the pages, the
full log (loop lines followed by the final `Saved N total records` line),
the requests issued, and the aborting status if the loop hit one. -/
structure RunResult where
  fileWrites : List String
  records : List Record
  pages : List (List Record)
  logs : List LogLine
  requests : List (Nat × Nat)
  err : Option Nat
deriving DecidableEq, Repr

/-- A full run of the script: the loop from `offset = 0` with empty
accumulator, then the single `json.dump` of `all_records` and the final
`Saved ... total records` print.  `none` when the fuel bound is hit. -/
def fetchRun (server : Nat → Nat → Response) (limit fuel : Nat) :
    Option RunResult :=
  (fetchLoop server limit fuel 0 [] [] [] []).map fun st =>
    ⟨[jsonDump st.all_records], st.all_records, st.pages,
      st.logs ++ [.saved st.all_records.length], st.requests, st.err⟩

/-- The remote API under normal operation: the dataset `ds` is the full,
stably ordered result set of the filter predicate, and each request is
answered with the slice of `limit` records starting at `offset`. -/
def honestServer (ds : List Record) (limit offset : Nat) : Response :=
  ⟨200, (ds.drop offset).take limit⟩

/-- A server that behaves honestly until the request at offset `failAt`,
which it answers with status `s` (and an empty body, which the script
never reads on a non-200 status). -/
def failAtServer (ds : List Record) (failAt s : Nat) (limit offset : Nat) :
    Response :=
  if offset = failAt then ⟨s, []⟩ else ⟨200, (ds.drop offset).take limit⟩

/-! Embedding of `json_to_shapefile.py`.  Coordinates are exact rationals;
a CRS is a tag; library reprojection (`to_crs`) is an abstract coordinate
transform passed in as a parameter. -/

/-- A point in some coordinate reference system, as an `(x, y)` pair. -/
abbrev Coord := ℚ × ℚ

/-- The value found in a `longitude`/`latitude` field of a loaded record:
either a number or a non-numeric value (e.g. a string), which shapely's
`Point` constructor rejects with a `TypeError`. -/
inductive CoordVal
  | num (q : ℚ)
  | str (s : String)
deriving DecidableEq, Repr

/-- A row of the DataFrame loaded from `crash_data.json`: the two
coordinate fields used by the stage plus the passthrough attributes. -/
structure CrashRow where
  longitude : CoordVal
  latitude : CoordVal
  attrs : List (String × String)
deriving DecidableEq, Repr

/-- `Point(row["longitude"], row["latitude"])`: succeeds on numeric
coordinates, raises (modelled as `.error`) on non-numeric ones, exactly as
shapely raises `TypeError` inside `df.apply`. -/
def mkPoint (row : CrashRow) : Except String Coord :=
  match row.longitude, row.latitude with
  | .num x, .num y => .ok (x, y)
  | _, _ => .error "Point coordinates must be numeric"

/-- `geometry = df.apply(lambda row: Point(...), axis=1)`: geometry is
built row by row and the first exception aborts the whole stage. -/
def buildGeometries : List CrashRow → Except String (List (CrashRow × Coord))
  | [] => .ok []
  | r :: rs =>
    match mkPoint r with
    | .error e => .error e
    | .ok p =>
      match buildGeometries rs with
      | .error e => .error e
      | .ok gs => .ok ((r, p) :: gs)

/-- A coordinate reference system tag. -/
inductive CRS
  | epsg4326
  | epsg2277
  | other (code : String)
deriving DecidableEq, Repr

/-- A reprojection backend: the pyproj transform behind `to_crs`, mapping
a coordinate from a source CRS to a target CRS. -/
abbrev Reproj := CRS → CRS → Coord → Coord

/-- A GeoDataFrame: rows paired with their point geometry, tagged with the
CRS the geometry is currently expressed in. -/
structure GeoFrame where
  rows : List (CrashRow × Coord)
  crs : CRS
deriving Repr

/-- `gdf.to_crs(target)`: reprojects every geometry from the frame's CRS
to the target CRS, preserving the rows and their order. -/
def toCrs (T : Reproj) (g : GeoFrame) (target : CRS) : GeoFrame :=
  ⟨g.rows.map (fun rc => (rc.1, T g.crs target rc.2)), target⟩

/-- A buffer polygon: a circle of `radius` linear units around `center`,
tagged with the CRS it was computed in. -/
structure Buffer where
  center : Coord
  radius : ℚ
  crs : CRS
deriving Repr

/-- Squared Euclidean distance in the (linear) plane of a projected CRS. -/
def dist2 (p q : Coord) : ℚ := (p.1 - q.1) ^ 2 + (p.2 - q.2) ^ 2

/-- `point.within(buffer)`: true iff the point lies in the interior of the
buffer disc — strictly closer to the center than the radius.  Shapely's
`within` requires interior containment, so boundary coincidence is false;
the segmented buffer polygon is idealised as the exact circle. -/
def withinBuffer (p : Coord) (b : Buffer) : Bool :=
  decide (dist2 p b.center < b.radius ^ 2)

/-- `reference_point = Point(-97.717035, 30.349979)` — (x = longitude,
y = latitude). -/
def reference_point : Coord := (-97717035 / 1000000, 30349979 / 1000000)

/-- `gdf_projected = gdf.to_crs("EPSG:2277")`: the dataset, tagged
EPSG:4326 on construction, reprojected to Texas State Plane Central. -/
def gdf_projected (T : Reproj) (geo : List (CrashRow × Coord)) : GeoFrame :=
  toCrs T ⟨geo, .epsg4326⟩ .epsg2277

/-- `ref_point_gdf = GeoSeries([reference_point], crs="EPSG:4326")
.to_crs("EPSG:2277")`: the reference point reprojected independently of
the dataset, to the same target CRS. -/
def ref_point_gdf (T : Reproj) : Coord :=
  T .epsg4326 .epsg2277 reference_point

/-- `buffer_300ft = ref_point_gdf.buffer(500).iloc[0]`: the radius-500
circle around the reprojected reference point, computed in EPSG:2277. -/
def buffer_300ft (T : Reproj) : Buffer :=
  ⟨ref_point_gdf T, 500, .epsg2277⟩

/-- `gdf_filtered = gdf_projected[gdf_projected.within(buffer_300ft)]`:
boolean-mask filtering, which keeps the surviving rows in order. -/
def gdf_filtered (T : Reproj) (geo : List (CrashRow × Coord)) : GeoFrame :=
  ⟨(gdf_projected T geo).rows.filter (fun rc => withinBuffer rc.2 (buffer_300ft T)),
    .epsg2277⟩

/-- The spatial stage end to end: build geometries (propagating any
exception), project to EPSG:2277, filter by `within` against the buffer,
and reproject the filtered frame back to EPSG:4326 for export. -/
def jsonToShapefile (T : Reproj) (rows : List CrashRow) :
    Except String GeoFrame :=
  match buildGeometries rows with
  | .error e => .error e
  | .ok geo => .ok (toCrs T (gdf_filtered T geo) .epsg4326)

/-! Helper lemmas about the fetch loop. -/

/-- Whatever the server does, the loop's request log grows by a block of
consecutive offsets `offset, offset + limit, offset + 2*limit, ...`. -/
theorem fetchLoop_requests_eq (server : Nat → Nat → Response) (limit : Nat) :
    ∀ fuel offset acc pages logs reqs st,
      fetchLoop server limit fuel offset acc pages logs reqs = some st →
      ∃ k, 1 ≤ k ∧
        st.requests = reqs ++ (List.range k).map fun i => (limit, offset + i * limit) := by
  intro fuel
  induction fuel with
  | zero =>
    intro offset acc pages logs reqs st h
    simp [fetchLoop] at h
  | succ n ih =>
    intro offset acc pages logs reqs st h
    simp only [fetchLoop] at h
    split at h
    · obtain rfl := Option.some.inj h
      exact ⟨1, le_refl 1, by simp [List.range_succ]⟩
    · split at h
      · obtain rfl := Option.some.inj h
        exact ⟨1, le_refl 1, by simp [List.range_succ]⟩
      · obtain ⟨k, hk, hreq⟩ := ih _ _ _ _ _ _ h
        refine ⟨k + 1, by omega, ?_⟩
        have hfun : (fun i => (limit, offset + limit + i * limit))
            = ((fun i => (limit, offset + i * limit)) ∘ Nat.succ) := by
          funext i
          simp only [Function.comp, Nat.succ_eq_add_one, Prod.mk.injEq, true_and]
          ring
        rw [hreq, List.range_succ_eq_map, List.map_cons, List.map_map, ← hfun]
        simp

/-- Against the honest server over dataset `ds`, the loop starting at
`offset` with enough fuel terminates normally and appends exactly the
suffix `ds.drop offset`, page by page. -/
theorem fetchLoop_honest (ds : List Record) (limit : Nat) (hl : 1 ≤ limit) :
    ∀ fuel offset acc pages logs reqs, ds.length - offset < fuel →
      (∀ s, LogLine.error s ∉ logs) →
      ∃ st,
        fetchLoop (honestServer ds) limit fuel offset acc pages logs reqs = some st ∧
        st.all_records = acc ++ ds.drop offset ∧
        st.pages.flatten = pages.flatten ++ ds.drop offset ∧
        st.err = none ∧
        (∀ s, LogLine.error s ∉ st.logs) := by
  intro fuel
  induction fuel with
  | zero => intro offset _ _ _ _ h _; omega
  | succ n ih =>
    intro offset acc pages logs reqs hf hlg
    by_cases hb : ds.drop offset = []
    · refine ⟨⟨acc, pages, logs, reqs ++ [(limit, offset)], none⟩, ?_,
        by simp [hb], by simp [hb], rfl, hlg⟩
      simp [fetchLoop, honestServer, hb]
    · have hoff : offset < ds.length := by
        by_contra hc
        exact hb (List.drop_eq_nil_of_le (by omega))
      have hf2 : ds.length - (offset + limit) < n := by omega
      have hlg2 : ∀ s, LogLine.error s ∉
          logs ++ [LogLine.fetched (acc ++ (ds.drop offset).take limit).length] := by
        intro s hmem
        rcases List.mem_append.mp hmem with hm | hm
        · exact hlg s hm
        · simp at hm
      obtain ⟨st, hrun, hrec, hpg, herr, herrlog⟩ := ih (offset + limit)
        (acc ++ (ds.drop offset).take limit)
        (pages ++ [(ds.drop offset).take limit])
        (logs ++ [.fetched (acc ++ (ds.drop offset).take limit).length])
        (reqs ++ [(limit, offset)]) hf2 hlg2
      have hbody : (ds.drop offset).take limit ≠ [] := by
        intro hc
        rcases List.take_eq_nil_iff.mp hc with h0 | h0
        · omega
        · exact hb h0
      have key : (ds.drop offset).take limit ++ ds.drop (offset + limit) = ds.drop offset := by
        rw [← List.drop_drop, List.take_append_drop]
      refine ⟨st, ?_, ?_, ?_, herr, herrlog⟩
      · rw [fetchLoop]
        simp only [honestServer, ne_eq, not_true_eq_false, if_false, hbody, if_neg,
          reduceIte]
        exact hrun
      · rw [hrec, List.append_assoc, key]
      · rw [hpg]
        simp only [List.flatten_append, List.flatten_cons, List.flatten_nil,
          List.append_nil, List.append_assoc, key]

/-- C1: against a dataset of exactly N records served in a stable order,
the pagination loop at any positive page size accumulates exactly those N
records, with no duplicates and none missing, and the concatenation of the
returned pages equals the full ordered result set. -/
theorem C1_pagination_completeness (ds : List Record) (limit fuel : Nat)
    (hl : 1 ≤ limit) (hfuel : ds.length < fuel) (hnd : ds.Nodup) :
    ∃ out, fetchRun (honestServer ds) limit fuel = some out ∧
      out.records = ds ∧ out.pages.flatten = ds ∧ out.records.Nodup ∧
      out.err = none := by
  obtain ⟨st, hrun, hrec, hpg, herr, -⟩ :=
    fetchLoop_honest ds limit hl fuel 0 [] [] [] [] (by omega) (by simp)
  have hrec2 : st.all_records = ds := by simpa using hrec
  have hpg2 : st.pages.flatten = ds := by simpa using hpg
  exact ⟨⟨[jsonDump st.all_records], st.all_records, st.pages,
      st.logs ++ [.saved st.all_records.length], st.requests, st.err⟩,
    by rw [fetchRun, hrun]; rfl, hrec2, hpg2, hrec2 ▸ hnd, herr⟩

/-- Witness for C1 at a concrete three-record dataset with page size 2. -/
theorem C1_witness :
    1 ≤ 2 ∧ ([[("id", "1")], [("id", "2")], [("id", "3")]] : List Record).length < 4 ∧
    ([[("id", "1")], [("id", "2")], [("id", "3")]] : List Record).Nodup ∧
    ∃ out, fetchRun (honestServer [[("id", "1")], [("id", "2")], [("id", "3")]]) 2 4
        = some out ∧
      out.records = [[("id", "1")], [("id", "2")], [("id", "3")]] ∧
      out.pages.flatten = [[("id", "1")], [("id", "2")], [("id", "3")]] ∧
      out.records.Nodup ∧ out.err = none :=
  ⟨by decide, by decide, by decide,
    C1_pagination_completeness [[("id", "1")], [("id", "2")], [("id", "3")]] 2 4
      (by decide) (by decide) (by decide)⟩

/-- C5: against a predicate matching zero records the first request
returns an empty page, the run terminates normally with no error, the
record set is empty, exactly one request was made, and the file written is
the empty JSON array. -/
theorem C5_zero_records (limit fuel : Nat) :
    fetchRun (honestServer []) limit (fuel + 1) =
      some ⟨["[]"], [], [], [.saved 0], [(limit, 0)], none⟩ := by
  simp [fetchRun, fetchLoop, honestServer, jsonDump]

/-- C7: in any terminating run, the sequence of requested offsets is
exactly `0, limit, 2*limit, ...` — monotone non-negative multiples of the
page size, one per request. -/
theorem C7_offsets_are_multiples (server : Nat → Nat → Response) (limit fuel : Nat)
    (st : FetchState) (h : fetchLoop server limit fuel 0 [] [] [] [] = some st) :
    st.requests = (List.range st.requests.length).map fun i => (limit, i * limit) := by
  obtain ⟨k, hk, hreq⟩ := fetchLoop_requests_eq server limit fuel 0 [] [] [] [] st h
  rw [hreq]
  simp

/-- Witness for C7 at a concrete one-record dataset with page size 5. -/
theorem C7_witness :
    ∃ st, fetchLoop (honestServer [[("a", "1")]]) 5 3 0 [] [] [] [] = some st ∧
      st.requests = (List.range st.requests.length).map fun i => (5, i * 5) :=
  ⟨⟨[[("a", "1")]], [[[("a", "1")]]], [.fetched 1], [(5, 0), (5, 5)], none⟩,
    by decide,
    C7_offsets_are_multiples (honestServer [[("a", "1")]]) 5 3
      ⟨[[("a", "1")]], [[[("a", "1")]]], [.fetched 1], [(5, 0), (5, 5)], none⟩
      (by decide)⟩

/-- C9: the fetch-accumulate-serialize pipeline is deterministic in the
server's answers: two runs whose servers answer every request identically
produce identical outcomes, including byte-for-byte identical file
contents. -/
theorem C9_deterministic (s1 s2 : Nat → Nat → Response) (limit fuel : Nat)
    (h : ∀ l o, s1 l o = s2 l o) :
    fetchRun s1 limit fuel = fetchRun s2 limit fuel ∧
    (fetchRun s1 limit fuel).map RunResult.fileWrites =
      (fetchRun s2 limit fuel).map RunResult.fileWrites := by
  have hs : s1 = s2 := funext fun l => funext fun o => h l o
  rw [hs]
  exact ⟨rfl, rfl⟩

/-- Witness for C9: two runs against the same concrete server. -/
theorem C9_witness :
    fetchRun (honestServer [[("a", "1")]]) 3 4 = fetchRun (honestServer [[("a", "1")]]) 3 4 ∧
    (fetchRun (honestServer [[("a", "1")]]) 3 4).map RunResult.fileWrites =
      (fetchRun (honestServer [[("a", "1")]]) 3 4).map RunResult.fileWrites :=
  C9_deterministic _ _ 3 4 fun _ _ => rfl

/-- Against a server that is honest up to offset `k * limit` and answers
that request with a non-success status `s`, the loop accumulates exactly
the first `k` pages, prints the error as its final loop log line, stops
with the failing request as its last request, and records the status. -/
theorem fetchLoop_failAt (ds : List Record) (limit s k : Nat) (hl : 1 ≤ limit)
    (hs : s ≠ 200) (hk : k * limit ≤ ds.length) :
    ∀ fuel j acc pages logs reqs, j ≤ k → k - j < fuel →
      ∃ st,
        fetchLoop (failAtServer ds (k * limit) s) limit fuel (j * limit)
          acc pages logs reqs = some st ∧
        st.all_records = acc ++ (ds.take (k * limit)).drop (j * limit) ∧
        st.err = some s ∧
        (∃ pre, st.logs = pre ++ [.error s]) ∧
        st.requests = reqs ++ (List.range (k - j + 1)).map fun i => (limit, (j + i) * limit) := by
  intro fuel
  induction fuel with
  | zero => intro j _ _ _ _ hj h; omega
  | succ n ih =>
    intro j acc pages logs reqs hj hfu
    by_cases hjk : j = k
    · subst hjk
      refine ⟨⟨acc, pages, logs ++ [.error s], reqs ++ [(limit, j * limit)], some s⟩,
        ?_, ?_, rfl, ⟨logs, rfl⟩, ?_⟩
      · rw [fetchLoop]
        simp [failAtServer, hs]
      · have hnil : (ds.take (j * limit)).drop (j * limit) = [] :=
          List.drop_eq_nil_of_le (by rw [List.length_take]; exact Nat.min_le_left _ _)
        rw [hnil, List.append_nil]
      · simp [List.range_succ]
    · have hjlt : j < k := by omega
      have hoffeq : j * limit + limit = (j + 1) * limit := by ring
      have hsub : (j + 1) * limit ≤ k * limit := Nat.mul_le_mul_right _ (by omega)
      have hne : j * limit ≠ k * limit := by
        intro hc
        exact hjk (Nat.eq_of_mul_eq_mul_right (by omega) hc)
      have hlen : j * limit < ds.length := by omega
      have hbody : (ds.drop (j * limit)).take limit ≠ [] := by
        intro hc
        rcases List.take_eq_nil_iff.mp hc with h0 | h0
        · omega
        · have := List.drop_eq_nil_iff.mp h0
          omega
      obtain ⟨st, hrun, hrec, herr, hlog, hreq⟩ := ih (j + 1)
        (acc ++ (ds.drop (j * limit)).take limit)
        (pages ++ [(ds.drop (j * limit)).take limit])
        (logs ++ [.fetched (acc ++ (ds.drop (j * limit)).take limit).length])
        (reqs ++ [(limit, j * limit)]) (by omega) (by omega)
      refine ⟨st, ?_, ?_, herr, hlog, ?_⟩
      · rw [fetchLoop]
        simp only [failAtServer, hne, if_neg, ite_false, ne_eq, not_true_eq_false,
          if_false, hbody, reduceIte]
        rw [hoffeq]
        exact hrun
      · rw [hrec]
        have hsplit : (ds.take (k * limit)).drop (j * limit)
            = (ds.drop (j * limit)).take limit
              ++ (ds.take (k * limit)).drop ((j + 1) * limit) := by
          rw [List.drop_take, List.drop_take]
          have harith : k * limit - j * limit = limit + (k * limit - (j + 1) * limit) := by
            omega
          rw [harith, List.take_add]
          congr 1
          rw [List.drop_drop, hoffeq]
        rw [hsplit, List.append_assoc]
      · rw [hreq]
        have hkj : k - (j + 1) + 1 = k - j := by omega
        have hfun : (fun i => (limit, (j + 1 + i) * limit))
            = ((fun i => (limit, (j + i) * limit)) ∘ Nat.succ) := by
          funext i
          simp only [Function.comp, Nat.succ_eq_add_one, Prod.mk.injEq, true_and]
          ring
        have hgoal : k - j = (k - j - 1) + 1 := by omega
        rw [hkj, hfun]
        rw [show k - j + 1 = (k - j) + 1 from rfl, List.range_succ_eq_map,
          List.map_cons, List.map_map]
        simp [List.append_assoc]

/-- C3: a non-success HTTP status is logged and aborts pagination at once:
the failing request is the last request, each earlier offset was requested
exactly once (no retry), whatever was accumulated before the failure is
kept, and the logs carry the error line — which no complete run against
the honest server ever produces, so the aborted run's report differs from
a complete run's. -/
theorem C3_error_aborts (ds : List Record) (limit s k fuel : Nat)
    (hl : 1 ≤ limit) (hs : s ≠ 200) (hk : k * limit ≤ ds.length)
    (hfuel : k < fuel) (hfuel2 : ds.length < fuel) :
    ∃ out, fetchRun (failAtServer ds (k * limit) s) limit fuel = some out ∧
      out.err = some s ∧
      out.records = ds.take (k * limit) ∧
      out.requests = (List.range (k + 1)).map (fun i => (limit, i * limit)) ∧
      LogLine.error s ∈ out.logs ∧
      ∃ outc, fetchRun (honestServer ds) limit fuel = some outc ∧
        (∀ t, LogLine.error t ∉ outc.logs) := by
  obtain ⟨st, hrun, hrec, herr, ⟨pre, hlog⟩, hreq⟩ :=
    fetchLoop_failAt ds limit s k hl hs hk fuel 0 [] [] [] [] (by omega) (by omega)
  rw [Nat.zero_mul] at hrun hrec
  obtain ⟨stc, hrunc, -, -, -, herrlogc⟩ :=
    fetchLoop_honest ds limit hl fuel 0 [] [] [] [] (by omega) (by simp)
  refine ⟨⟨[jsonDump st.all_records], st.all_records, st.pages,
      st.logs ++ [.saved st.all_records.length], st.requests, st.err⟩,
    by rw [fetchRun, hrun]; rfl, herr, by simpa using hrec, ?_, ?_, ?_⟩
  · rw [hreq]
    simp
  · rw [hlog]
    simp
  · refine ⟨⟨[jsonDump stc.all_records], stc.all_records, stc.pages,
      stc.logs ++ [.saved stc.all_records.length], stc.requests, stc.err⟩,
      by rw [fetchRun, hrunc]; rfl, ?_⟩
    intro t hmem
    rcases List.mem_append.mp hmem with hm | hm
    · exact herrlogc t hm
    · simp at hm

/-- Witness for C3: page size 1, failure with status 500 at the second
request, against a concrete two-record dataset. -/
theorem C3_witness :
    1 ≤ 1 ∧ (500 : Nat) ≠ 200 ∧
    1 * 1 ≤ ([[("id", "1")], [("id", "2")]] : List Record).length ∧ 1 < 4 ∧
    ([[("id", "1")], [("id", "2")]] : List Record).length < 4 ∧
    ∃ out, fetchRun (failAtServer [[("id", "1")], [("id", "2")]] (1 * 1) 500) 1 4
        = some out ∧
      out.err = some 500 ∧
      out.records = ([[("id", "1")], [("id", "2")]] : List Record).take (1 * 1) ∧
      out.requests = (List.range (1 + 1)).map (fun i => (1, i * 1)) ∧
      LogLine.error 500 ∈ out.logs ∧
      ∃ outc, fetchRun (honestServer [[("id", "1")], [("id", "2")]]) 1 4 = some outc ∧
        (∀ t, LogLine.error t ∉ outc.logs) :=
  ⟨by decide, by decide, by decide, by decide, by decide,
    C3_error_aborts [[("id", "1")], [("id", "2")]] 1 500 1 4
      (by decide) (by decide) (by decide) (by decide) (by decide)⟩

/-- C10: every terminating run — aborted or not — writes the output file
exactly once, with the serialization of whatever was accumulated, and ends
its log with the same `Saved N total records` line; a run whose first
request fails writes `[]` and reports `Saved 0`, so its file and final
message coincide with those of a successful zero-record fetch (only the
error log line and the recorded status differ). -/
theorem C10_file_and_message_indistinguishable :
    (∀ (server : Nat → Nat → Response) (limit fuel : Nat) (out : RunResult),
      fetchRun server limit fuel = some out →
      out.fileWrites = [jsonDump out.records] ∧
      out.logs.getLast? = some (.saved out.records.length)) ∧
    (∀ (ds : List Record) (limit fuel s : Nat), s ≠ 200 →
      ∃ out1 out2,
        fetchRun (failAtServer ds 0 s) limit (fuel + 1) = some out1 ∧
        fetchRun (honestServer []) limit (fuel + 1) = some out2 ∧
        out1.err = some s ∧ out2.err = none ∧
        out1.fileWrites = ["[]"] ∧
        out1.fileWrites = out2.fileWrites ∧
        out1.logs.getLast? = out2.logs.getLast?) := by
  constructor
  · intro server limit fuel out h
    rw [fetchRun] at h
    obtain ⟨st, hst, rfl⟩ := Option.map_eq_some'.mp h
    exact ⟨rfl, List.getLast?_concat _⟩
  · intro ds limit fuel s hs
    refine ⟨⟨["[]"], [], [], [.error s, .saved 0], [(limit, 0)], some s⟩,
      ⟨["[]"], [], [], [.saved 0], [(limit, 0)], none⟩, ?_, ?_, rfl, rfl, rfl, rfl, ?_⟩
    · simp [fetchRun, fetchLoop, failAtServer, hs, jsonDump]
    · simp [fetchRun, fetchLoop, honestServer, jsonDump]
    · simp

/-- Witness for C10: the general clause at a concrete successful run and
the first-request-failure clause at status 500. -/
theorem C10_witness :
    (((⟨["[]"], [], [], [.saved 0], [(7, 0)], none⟩ : RunResult).fileWrites
        = [jsonDump (⟨["[]"], [], [], [.saved 0], [(7, 0)], none⟩ : RunResult).records] ∧
      (⟨["[]"], [], [], [.saved 0], [(7, 0)], none⟩ : RunResult).logs.getLast?
        = some (.saved (⟨["[]"], [], [], [.saved 0], [(7, 0)], none⟩ : RunResult).records.length)) ∧
    ∃ out1 out2,
      fetchRun (failAtServer [] 0 500) 7 (0 + 1) = some out1 ∧
      fetchRun (honestServer []) 7 (0 + 1) = some out2 ∧
      out1.err = some 500 ∧ out2.err = none ∧
      out1.fileWrites = ["[]"] ∧
      out1.fileWrites = out2.fileWrites ∧
      out1.logs.getLast? = out2.logs.getLast?) :=
  ⟨C10_file_and_message_indistinguishable.1 (honestServer []) 7 1
      ⟨["[]"], [], [], [.saved 0], [(7, 0)], none⟩ (by decide),
    C10_file_and_message_indistinguishable.2 [] 7 0 500 (by decide)⟩

/-! Lemmas and claims about the spatial stage. -/

/-- When geometry construction succeeds, it pairs each row with a point,
preserving the rows and their order. -/
theorem buildGeometries_map_fst (rows : List CrashRow) (geo : List (CrashRow × Coord))
    (h : buildGeometries rows = .ok geo) : geo.map Prod.fst = rows := by
  induction rows generalizing geo with
  | nil =>
    simp only [buildGeometries] at h
    obtain rfl := Except.ok.inj h
    rfl
  | cons r rs ih =>
    simp only [buildGeometries] at h
    cases hp : mkPoint r with
    | error e => simp [hp] at h
    | ok p =>
      cases hg : buildGeometries rs with
      | error e => simp [hp, hg] at h
      | ok gs =>
        simp only [hp, hg] at h
        obtain rfl := Except.ok.inj h
        simp [ih gs hg]

/-- C2 (code behavior): a record whose longitude is non-numeric makes
geometry construction raise, which aborts the whole Filter stage — the
stage returns an error and even the valid records yield no output, instead
of the bad record being excluded and the rest processed. -/
theorem C2_nonnumeric_coordinate_crashes_stage :
    jsonToShapefile (fun _ _ c => c)
      [⟨.str "abc", .num 30, []⟩, ⟨.num (-97), .num 30, []⟩]
      = .error "Point coordinates must be numeric" := rfl

/-- C4: with the containment test in the projected CRS, a record placed
exactly at the (reprojected) reference point is retained, a record at
squared distance greater than `500 ^ 2` is excluded, and a record at
exactly distance 500 — on the buffer boundary — is excluded too, because
`within` tests strict interior containment, not intersection. -/
theorem C4_within_strict (T : Reproj) (p q : Coord) :
    withinBuffer (buffer_300ft T).center (buffer_300ft T) = true ∧
    (500 ^ 2 < dist2 p (buffer_300ft T).center →
      withinBuffer p (buffer_300ft T) = false) ∧
    (dist2 q (buffer_300ft T).center = 500 ^ 2 →
      withinBuffer q (buffer_300ft T) = false) := by
  refine ⟨?_, ?_, ?_⟩
  · simp only [withinBuffer, buffer_300ft, dist2, decide_eq_true_eq, sub_self]
    norm_num
  · intro h
    simp only [withinBuffer, buffer_300ft, decide_eq_false_iff_not, not_lt] at h ⊢
    exact le_of_lt h
  · intro h
    simp only [withinBuffer, buffer_300ft, decide_eq_false_iff_not, not_lt] at h ⊢
    exact le_of_eq h.symm

/-- Witness for C4 with the reprojection that sends everything to the
origin: the center is kept, distance 501 is excluded, distance 500 (the
boundary) is excluded. -/
theorem C4_witness :
    withinBuffer (buffer_300ft fun _ _ _ => ((0 : ℚ), (0 : ℚ))).center
      (buffer_300ft fun _ _ _ => ((0 : ℚ), (0 : ℚ))) = true ∧
    withinBuffer ((501 : ℚ), (0 : ℚ)) (buffer_300ft fun _ _ _ => ((0 : ℚ), (0 : ℚ))) = false ∧
    withinBuffer ((500 : ℚ), (0 : ℚ)) (buffer_300ft fun _ _ _ => ((0 : ℚ), (0 : ℚ))) = false := by
  obtain ⟨h1, h2, h3⟩ :=
    C4_within_strict (fun _ _ _ => ((0 : ℚ), (0 : ℚ))) (501, 0) (500, 0)
  exact ⟨h1, h2 (by norm_num [dist2, buffer_300ft, ref_point_gdf]),
    h3 (by norm_num [dist2, buffer_300ft, ref_point_gdf])⟩

/-- C6: the buffer is a circle of radius 500 linear units, tagged with the
projected CRS EPSG:2277 (never the geographic EPSG:4326), centered on the
independently reprojected reference point, constructed only after the
dataset has itself been reprojected to the same EPSG:2277; the containment
filter is applied to the projected dataset against exactly this buffer. -/
theorem C6_buffer_after_reprojection (T : Reproj) (geo : List (CrashRow × Coord)) :
    (buffer_300ft T).radius = 500 ∧
    (buffer_300ft T).crs = .epsg2277 ∧
    (buffer_300ft T).crs ≠ .epsg4326 ∧
    (buffer_300ft T).center = T .epsg4326 .epsg2277 reference_point ∧
    (gdf_projected T geo).crs = .epsg2277 ∧
    gdf_filtered T geo = GeoFrame.mk
      ((gdf_projected T geo).rows.filter fun rc => withinBuffer rc.2 (buffer_300ft T))
      .epsg2277 :=
  ⟨rfl, rfl, by simp [buffer_300ft], rfl, rfl, rfl⟩

/-- C8: the filtered output is a subsequence of the GeoRecord collection —
the retained records appear in their original relative order, and neither
the boolean-mask filter nor either reprojection reorders them. -/
theorem C8_filtered_is_ordered_subsequence (T : Reproj) (rows : List CrashRow)
    (geo : List (CrashRow × Coord)) (h : buildGeometries rows = .ok geo) :
    ∃ g, jsonToShapefile T rows = .ok g ∧
      g.crs = .epsg4326 ∧
      (g.rows.map Prod.fst).Sublist (geo.map Prod.fst) ∧
      (g.rows.map Prod.fst).Sublist rows := by
  have hsub : ((gdf_filtered T geo).rows.map Prod.fst).Sublist (geo.map Prod.fst) := by
    have h1 : ((gdf_projected T geo).rows.filter
        (fun rc => withinBuffer rc.2 (buffer_300ft T))).Sublist
        (gdf_projected T geo).rows :=
      List.filter_sublist _
    have h2 := h1.map Prod.fst
    have h3 : (gdf_projected T geo).rows.map Prod.fst = geo.map Prod.fst := by
      show (geo.map fun rc => (rc.1, T .epsg4326 .epsg2277 rc.2)).map Prod.fst
        = geo.map Prod.fst
      rw [List.map_map]
      rfl
    rw [h3] at h2
    exact h2
  have htop : ((toCrs T (gdf_filtered T geo) .epsg4326).rows.map Prod.fst)
      = (gdf_filtered T geo).rows.map Prod.fst := by
    show ((gdf_filtered T geo).rows.map fun rc =>
      (rc.1, T (gdf_filtered T geo).crs .epsg4326 rc.2)).map Prod.fst
      = (gdf_filtered T geo).rows.map Prod.fst
    rw [List.map_map]
    rfl
  refine ⟨toCrs T (gdf_filtered T geo) .epsg4326, ?_, rfl, ?_, ?_⟩
  · rw [jsonToShapefile, h]
  · rw [htop]
    exact hsub
  · rw [htop, ← buildGeometries_map_fst rows geo h]
    exact hsub

/-- Witness for C8: one valid record under the identity reprojection. -/
theorem C8_witness :
    buildGeometries [⟨.num 0, .num 0, []⟩]
        = .ok [(⟨.num 0, .num 0, []⟩, ((0 : ℚ), (0 : ℚ)))] ∧
    ∃ g, jsonToShapefile (fun _ _ c => c) [⟨.num 0, .num 0, []⟩] = .ok g ∧
      g.crs = .epsg4326 ∧
      (g.rows.map Prod.fst).Sublist
        ([(⟨.num 0, .num 0, []⟩, ((0 : ℚ), (0 : ℚ)))].map Prod.fst) ∧
      (g.rows.map Prod.fst).Sublist [⟨.num 0, .num 0, []⟩] :=
  ⟨rfl, C8_filtered_is_ordered_subsequence (fun _ _ c => c) [⟨.num 0, .num 0, []⟩]
    [(⟨.num 0, .num 0, []⟩, ((0 : ℚ), (0 : ℚ)))] rfl⟩

end CrashData
